import Mathlib
/-!
Verification of the scratch-org pool engine of sfpowerscripts.

The definitions below are a shallow embedding of the pool lifecycle code:
the pool listing (PoolListImpl.execute and the list command run method),
the prerequisite detector (PreRequisiteCheck.checkForPrerequisites),
the query and mutation helpers of ScratchOrgUtils, and the generic
QueryHelper.  Remote calls are modelled by passing their outcomes in as
explicit values; the in-place mutation performed by getScratchOrgRecordId
is modelled by returning the updated list of records.
-/

/-- JavaScript falsiness of a string-valued field: the field is falsy when
it is null or undefined (modelled by none) or when it is the empty string. -/
def isFalsy : Option String → Bool
  | none => true
  | some s => s.isEmpty

/-- One row of the ScratchOrgInfo query issued by getScratchOrgsByTag, with
the fields that PoolListImpl.execute copies out of it.  Allocation_status__c
is a nillable picklist, hence an optional value; Password__c is nillable too. -/
structure ScratchOrgInfoRecord where
  Pooltag__c : String
  ScratchOrg : String
  LoginUrl : String
  SignupUsername : String
  Password__c : Option String
  ExpirationDate : String
  Allocation_status__c : Option String
deriving DecidableEq

/-- The ScratchOrg value object built by the pool code (interface ScratchOrg).
Fields that the claims exercise as possibly-absent (password, recordId) are
optional; the remaining fields default to the empty string.  The source
field named alias is embedded as orgAlias, since alias is reserved here. -/
structure ScratchOrg where
  tag : String := ""
  recordId : Option String := none
  orgId : String := ""
  loginURL : String := ""
  username : String := ""
  orgAlias : String := ""
  password : Option String := none
  signupEmail : String := ""
  sfdxAuthUrl : String := ""
  expityDate : String := ""
  status : String := ""
deriving DecidableEq

/-- Per-record body of the loop in PoolListImpl.execute: copy the queried
fields into a ScratchOrg value and derive its status from
Allocation_status__c and the memoized isNewVersionCompatible flag. -/
def soDetailOfRecord (isNewVersionCompatible : Bool) (element : ScratchOrgInfoRecord) :
    ScratchOrg :=
  let soDetail : ScratchOrg :=
    { tag := element.Pooltag__c
      orgId := element.ScratchOrg
      loginURL := element.LoginUrl
      username := element.SignupUsername
      password := element.Password__c
      expityDate := element.ExpirationDate }
  if element.Allocation_status__c = some "Assigned" then
    { soDetail with status := "In use" }
  else if (isNewVersionCompatible = true ∧ element.Allocation_status__c = some "Available")
      ∨ (isNewVersionCompatible = false ∧ isFalsy element.Allocation_status__c = true) then
    { soDetail with status := "Available" }
  else
    { soDetail with status := "Provisioning in progress" }

/-- PoolListImpl.execute: map every queried record to its ScratchOrg value
(the source loops and pushes; an empty result yields the empty list). -/
def PoolListImpl_execute (isNewVersionCompatible : Bool)
    (records : List ScratchOrgInfoRecord) : List ScratchOrg :=
  records.map (soDetailOfRecord isNewVersionCompatible)

/-- Status derivation exactly as the claim states it: Assigned is In use;
Available in new-compatibility mode, or an empty or absent value in legacy
mode, is Available; every other value is Provisioning in progress. -/
def claimDerivedStatus (newCompatibilityMode : Bool) (value : Option String) : String :=
  if value = some "Assigned" then "In use"
  else if (newCompatibilityMode = true ∧ value = some "Available")
      ∨ (newCompatibilityMode = false ∧ (value = none ∨ value = some "")) then "Available"
  else "Provisioning in progress"

/-- The structured JSON output assembled at the end of List.run in the pool
list command: the three status filters over the listing result and the
total computed as their sum. -/
structure PoolListOutput where
  total : Nat
  inuse : Nat
  unused : Nat
  inprovision : Nat
  scratchOrgDetails : List ScratchOrg
deriving DecidableEq

/-- List.run output assembly: filter the listing result by the three derived
status values and report the counts plus their sum as the total. -/
def List_run_output (result : List ScratchOrg) : PoolListOutput :=
  let scratchOrgInuse := result.filter (fun element => element.status == "In use")
  let scratchOrgNotInuse := result.filter (fun element => element.status == "Available")
  let scratchOrgInProvision :=
    result.filter (fun element => element.status == "Provisioning in progress")
  { total := scratchOrgInuse.length + scratchOrgNotInuse.length + scratchOrgInProvision.length
    inuse := scratchOrgInuse.length
    unused := scratchOrgNotInuse.length
    inprovision := scratchOrgInProvision.length
    scratchOrgDetails := result }

/-- One entry of a picklist field in a describe result. -/
structure PicklistEntry where
  value : String
  active : Bool
deriving DecidableEq

/-- One field of the ScratchOrgInfo describe result: its name and, for
picklist fields, its picklist entries (empty for non-picklist fields). -/
structure FieldDescribe where
  name : String
  picklistValues : List PicklistEntry
deriving DecidableEq

/-- The expected allocation-status values of PreRequisiteCheck. -/
def expectedValues : List String := ["In Progress", "Available", "Allocate", "Assigned"]

/-- The values of the active picklist entries of a field, in order. -/
def activeValues (field : FieldDescribe) : List String :=
  (field.picklistValues.filter (fun p => p.active)).map (fun p => p.value)

/-- The loop condition on which PreRequisiteCheck stops scanning fields:
the field is named Allocation_status__c and has exactly 4 picklist entries,
counting active and inactive entries alike. -/
def isAllocationFieldWithFourEntries (field : FieldDescribe) : Bool :=
  field.name == "Allocation_status__c" && field.picklistValues.length == 4

/-- The field-loop of PreRequisiteCheck.checkForPrerequisites: walk the
describe result in order, record whether SfdxAuthUrl__c was seen, and stop
at the first Allocation_status__c field with exactly 4 picklist entries,
collecting the values of its active entries. -/
def scanFields : List FieldDescribe → Bool → Bool × List String
  | [], sfdxAuthUrlFieldExists => (sfdxAuthUrlFieldExists, [])
  | field :: rest, sfdxAuthUrlFieldExists =>
    let sfdxAuthUrlFieldExists := sfdxAuthUrlFieldExists || field.name == "SfdxAuthUrl__c"
    if isAllocationFieldWithFourEntries field then
      (sfdxAuthUrlFieldExists, activeValues field)
    else
      scanFields rest sfdxAuthUrlFieldExists

/-- The memoized verdict computed by the first PreRequisiteCheck call:
SfdxAuthUrl__c was seen and filtering the expected values down to those not
contained in the collected available values leaves nothing. -/
def isPrerequisiteMetOf (fields : List FieldDescribe) : Bool :=
  let scanned := scanFields fields false
  scanned.1 && (expectedValues.filter (fun item => !(scanned.2.contains item))).length == 0

/-- Process-wide static state of PreRequisiteCheck, together with a counter
of how many remote describe round-trips have been issued. -/
structure PreReqState where
  isPrerequisiteChecked : Bool
  isPrerequisiteMet : Bool
  describeCallCount : Nat
deriving DecidableEq

/-- Fresh static state at process start. -/
def initialPreReqState : PreReqState :=
  { isPrerequisiteChecked := false, isPrerequisiteMet := false, describeCallCount := 0 }

/-- Outcome of one checkForPrerequisites invocation: normal return, a thrown
PreRequisiteCheckError, or the retried describe call itself rejecting. -/
inductive CheckOutcome
  | ok
  | prereqError
  | describeError
deriving DecidableEq

/-- One invocation of PreRequisiteCheck.checkForPrerequisites.  When the
static checked flag is unset, the retried describe call runs (its outcome is
passed in: none models rejection after the retries); a rejection propagates
before the checked flag is set.  On a successful describe the verdict is
computed, both static flags are set, and a PreRequisiteCheckError is thrown
unless the verdict is met.  When the checked flag is already set, no remote
call happens and the memoized verdict alone decides the outcome. -/
def checkForPrerequisitesStep (describeOutcome : Option (List FieldDescribe))
    (s : PreReqState) : PreReqState × CheckOutcome :=
  if s.isPrerequisiteChecked then
    (s, if s.isPrerequisiteMet then .ok else .prereqError)
  else
    match describeOutcome with
    | none => ({ s with describeCallCount := s.describeCallCount + 1 }, .describeError)
    | some fields =>
      let met := isPrerequisiteMetOf fields
      ({ isPrerequisiteChecked := true, isPrerequisiteMet := met,
         describeCallCount := s.describeCallCount + 1 },
       if met then .ok else .prereqError)

/-- A sequence of checkForPrerequisites invocations in one process, threading
the static state; returns the final state and the outcome of each call. -/
def runCheckCalls : List (Option (List FieldDescribe)) → PreReqState →
    PreReqState × List CheckOutcome
  | [], s => (s, [])
  | o :: os, s =>
    let first := checkForPrerequisitesStep o s
    let rest := runCheckCalls os first.1
    (rest.1, first.2 :: rest.2)

/-- The prerequisite condition exactly as the claim states it: the active
picklist of the allocation-status field has count 4, the expected value set
is a subset of the active values, and the auth-url field is present. -/
def claimPrereqMet (fields : List FieldDescribe) : Bool :=
  (fields.any (fun f => f.name == "SfdxAuthUrl__c")) &&
  (match fields.find? (fun f => f.name == "Allocation_status__c") with
   | some field => (activeValues field).length == 4
       && expectedValues.all (fun v => (activeValues field).contains v)
   | none => false)

/-- A describe result whose allocation-status picklist carries the four
expected values as active entries plus one inactive legacy entry: its active
picklist has count 4 and contains the expected set, and the auth-url field
exists, yet the check rejects it because it counts all 5 entries. -/
def fieldsWithInactiveLegacyEntry : List FieldDescribe :=
  [{ name := "SfdxAuthUrl__c", picklistValues := [] },
   { name := "Allocation_status__c",
     picklistValues :=
       [{ value := "In Progress", active := true },
        { value := "Available", active := true },
        { value := "Allocate", active := true },
        { value := "Assigned", active := true },
        { value := "Legacy", active := false }] }]

/-- The prerequisite condition as amended: scanning stops at the first
allocation-status field with exactly 4 picklist entries counting inactive
ones; the check passes exactly when such a field exists, the expected set is
among its active values, and the auth-url field occurs in the scanned part
of the field list (up to and including the stopping field). -/
def amendedPrereqMet (fields : List FieldDescribe) : Bool :=
  match fields.dropWhile (fun f => !(isAllocationFieldWithFourEntries f)) with
  | [] => false
  | field :: _ =>
    ((fields.takeWhile (fun f => !(isAllocationFieldWithFourEntries f)) ++ [field]).any
        (fun f => f.name == "SfdxAuthUrl__c"))
      && expectedValues.all (fun v => (activeValues field).contains v)

/-- Order-by clause appended to every getScratchOrgsByTag query. -/
def ORDER_BY_FILTER : String := " ORDER BY CreatedDate ASC"

/-- The base select of getScratchOrgsByTag: filter on tag equality when a
tag is provided (isNullOrUndefined is false), on a non-null tag otherwise;
both branches carry the Status filter. -/
def tagSelectQuery : Option String → String
  | some tag => "SELECT Pooltag__c, Id,  CreatedDate, ScratchOrg, ExpirationDate, SignupUsername, SignupEmail, Password__c, Allocation_status__c,LoginUrl,SfdxAuthUrl__c FROM ScratchOrgInfo WHERE Pooltag__c = '" ++ tag ++ "'  AND Status = 'Active' "
  | none => "SELECT Pooltag__c, Id,  CreatedDate, ScratchOrg, ExpirationDate, SignupUsername, SignupEmail, Password__c, Allocation_status__c,LoginUrl,SfdxAuthUrl__c FROM ScratchOrgInfo WHERE Pooltag__c != null  AND Status = 'Active' "

/-- The query text built by ScratchOrgUtils.getScratchOrgsByTag: the base
select, then the created-by filter when isMyPool is set, then the
allocation-status filter when unAssigned is set, then the order-by clause. -/
def getScratchOrgsByTagQuery (tag : Option String) (isMyPool : Bool) (unAssigned : Bool)
    (hubUsername : String) : String :=
  let query := tagSelectQuery tag
  let query := if isMyPool
    then query ++ (" AND createdby.username = '" ++ hubUsername ++ "' ")
    else query
  let query := if unAssigned
    then query ++ "AND ( Allocation_status__c ='Available' OR Allocation_status__c = 'In Progress' ) "
    else query
  query ++ ORDER_BY_FILTER

/-- Substring containment used to state which filters a query text carries. -/
def containsSub (q m : String) : Prop := ∃ p s, q = p ++ m ++ s

/-- The tag filter required by the claim: tag equality when a tag is
provided, a non-null tag otherwise. -/
def claimTagFilterClause : Option String → String
  | some tag => "Pooltag__c = '" ++ tag ++ "'"
  | none => "Pooltag__c != null"

/-- Options object passed to the retry wrapper at a call site. -/
structure RetryOptions where
  retries : Nat
  minTimeout : Nat
deriving DecidableEq

/-- Modelled from the async-retry dependency used at every wrapped call
site: attempt the operation; on success return its value, on a thrown error
retry until the given number of retries beyond the first attempt is used up,
then reject with the last error.  The outcome of the i-th attempt is passed
in as attempts i. -/
def retryFrom {E A : Type} (attempts : Nat → Except E A) : Nat → Nat → Except E A
  | i, fuel =>
    match attempts i, fuel with
    | .ok a, _ => .ok a
    | .error e, 0 => .error e
    | .error _, f + 1 => retryFrom attempts (i + 1) f

/-- Run an operation under the retry wrapper with the given options. -/
def retryExec {E A : Type} (opts : RetryOptions) (attempts : Nat → Except E A) :
    Except E A :=
  retryFrom attempts 0 opts.retries

/-- The remote call sites of the pool engine: the generic query helper, the
describe call of the prerequisite check, and each remote call of
ScratchOrgUtils. -/
inductive RemoteCallSite
  | queryHelper_query
  | preRequisiteCheck_describe
  | getScratchOrgLimits
  | getScratchOrgRecordsAsMapByUser
  | getScratchOrgLoginURL
  | shareScratchOrgThroughEmail
  | getScratchOrgRecordId
  | setScratchOrgInfo_update
  | getScratchOrgsByTag_call
  | getActiveScratchOrgsByInfoId
  | getCountOfActiveScratchOrgsByTag
  | getCountOfActiveScratchOrgsByTagAndUsername
  | getActiveScratchOrgRecordIdGivenScratchOrg
  | deleteScratchOrg
deriving DecidableEq

/-- The retry options each call site passes to the retry wrapper, read off
the source: none when the remote call is issued without any retry wrapper
(the limits fetch, the per-user aggregate query, and the login-URL lookup
call the connection directly). -/
def retryOptionsAt : RemoteCallSite → Option RetryOptions
  | .queryHelper_query => some { retries := 3, minTimeout := 2000 }
  | .preRequisiteCheck_describe => some { retries := 3, minTimeout := 30000 }
  | .getScratchOrgLimits => none
  | .getScratchOrgRecordsAsMapByUser => none
  | .getScratchOrgLoginURL => none
  | .shareScratchOrgThroughEmail => some { retries := 3, minTimeout := 30000 }
  | .getScratchOrgRecordId => some { retries := 3, minTimeout := 3000 }
  | .setScratchOrgInfo_update => some { retries := 3, minTimeout := 3000 }
  | .getScratchOrgsByTag_call => some { retries := 3, minTimeout := 3000 }
  | .getActiveScratchOrgsByInfoId => some { retries := 3, minTimeout := 3000 }
  | .getCountOfActiveScratchOrgsByTag => some { retries := 3, minTimeout := 3000 }
  | .getCountOfActiveScratchOrgsByTagAndUsername => some { retries := 3, minTimeout := 3000 }
  | .getActiveScratchOrgRecordIdGivenScratchOrg => some { retries := 3, minTimeout := 3000 }
  | .deleteScratchOrg => some { retries := 3, minTimeout := 3000 }

/-- The minimum backoff the claim assigns to each call class: 2 seconds for
the generic query helper, 30 seconds for schema describe and the email
action, 3 seconds for row fetches and mutations. -/
def claimBackoff : RemoteCallSite → Nat
  | .queryHelper_query => 2000
  | .preRequisiteCheck_describe => 30000
  | .shareScratchOrgThroughEmail => 30000
  | _ => 3000

/-- The call sites that issue their remote call without a retry wrapper. -/
def unwrappedCallSites : List RemoteCallSite :=
  [.getScratchOrgLimits, .getScratchOrgRecordsAsMapByUser, .getScratchOrgLoginURL]

/-- Result shape of the jsforce sobject update call in setScratchOrgInfo: a
single record result carrying a success flag, or an array result for bulk
input (whose constructor is Array). -/
inductive UpdateCallResult
  | single (success : Bool)
  | multiple
deriving DecidableEq

/-- Body of one setScratchOrgInfo attempt: the update call either resolves
or throws (its outcome is passed in).  A resolved single-record result
yields its success flag, an array result yields true, and a thrown error is
caught, logged, and converted to false; the attempt itself never throws. -/
def setScratchOrgInfoAttempt (updateOutcome : Except String UpdateCallResult) :
    Except String Bool :=
  match updateOutcome with
  | .ok (.single success) => .ok success
  | .ok .multiple => .ok true
  | .error _ => .ok false

/-- ScratchOrgUtils.setScratchOrgInfo: the attempt body run under the retry
wrapper with 3 retries and a 3 second minimum backoff. -/
def setScratchOrgInfo (updateOutcomes : Nat → Except String UpdateCallResult) :
    Except String Bool :=
  retryExec { retries := 3, minTimeout := 3000 }
    (fun i => setScratchOrgInfoAttempt (updateOutcomes i))

/-- Result of the underlying scratch-org creation command in
createScratchOrg. -/
structure CreateScratchOrgResult where
  orgId : String
  username : String
deriving DecidableEq

/-- Result of the password-set operation: the generated password may be
absent when the backend did not set one. -/
structure PasswordData where
  password : Option String
  username : String
deriving DecidableEq

/-- ScratchOrgUtils.createScratchOrg with the outcomes of its remote
sub-steps passed in: the creation command result (a thrown creation error is
rethrown unchanged by the try-catch), the login-URL lookup, the password-set
data and the resolved auth url.  After assembling the ScratchOrg value the
source throws an explicit error when the password-set data carries no
password; otherwise the assembled value is returned. -/
def createScratchOrg (id : Nat) (adminEmail : Option String)
    (createResult : Except String CreateScratchOrgResult)
    (loginURL : String) (passwordData : PasswordData) (sfdxAuthUrl : String) :
    Except String ScratchOrg :=
  match createResult with
  | .error error => .error error
  | .ok result =>
    let scratchOrg : ScratchOrg :=
      { orgAlias := "SO" ++ toString id
        orgId := result.orgId
        username := result.username
        signupEmail := if isFalsy adminEmail then "" else adminEmail.getD "" }
    let scratchOrg := { scratchOrg with loginURL := loginURL }
    let scratchOrg := { scratchOrg with password := passwordData.password }
    let scratchOrg := { scratchOrg with sfdxAuthUrl := sfdxAuthUrl }
    if isFalsy passwordData.password then
      .error "Unable to setup password to scratch org"
    else
      .ok scratchOrg

/-- JavaScript slice(0, n) on a string: its first n characters. -/
def stringSlice (s : String) (n : Nat) : String := String.mk (s.data.take n)

/-- The in-place truncation performed by the map in getScratchOrgRecordId:
every orgId of the given ScratchOrg values is overwritten with its first 15
characters. -/
def truncatedScratchOrgs (scratchOrgs : List ScratchOrg) : List ScratchOrg :=
  scratchOrgs.map (fun scratchOrg => { scratchOrg with orgId := stringSlice scratchOrg.orgId 15 })

/-- The quoted id list built by the map in getScratchOrgRecordId, in order:
one quoted truncated orgId per given ScratchOrg. -/
def scratchOrgIdStrings (scratchOrgs : List ScratchOrg) : List String :=
  (truncatedScratchOrgs scratchOrgs).map (fun scratchOrg => "'" ++ scratchOrg.orgId ++ "'")

/-- The query text issued by getScratchOrgRecordId: the quoted truncated ids
joined with commas inside the IN clause. -/
def getScratchOrgRecordIdQuery (scratchOrgs : List ScratchOrg) : String :=
  "SELECT Id, ScratchOrg FROM ScratchOrgInfo WHERE ScratchOrg IN ( "
    ++ String.intercalate "," (scratchOrgIdStrings scratchOrgs) ++ " )"

/-- The state of the caller's ScratchOrg values after getScratchOrgRecordId
returns: the source mutates the given objects in place, truncating each
orgId to 15 characters in the id-building map and then assigning each
recordId from the query result keyed by the truncated orgId. -/
def getScratchOrgRecordIdEffect (scratchOrgs : List ScratchOrg)
    (queryRecordId : String → Option String) : List ScratchOrg :=
  (truncatedScratchOrgs scratchOrgs).map
    (fun scratchOrg => { scratchOrg with recordId := queryRecordId scratchOrg.orgId })

/-- A ScratchOrg with an 18-character orgId, as in the claim's example. -/
def exampleScratchOrg : ScratchOrg := { orgId := "00D2xxxxxxxxxxxAAA" }

theorem isFalsy_eq_true_iff (v : Option String) :
    isFalsy v = true ↔ v = none ∨ v = some "" := by
  cases v with
  | none => simp [isFalsy]
  | some s => simp [isFalsy, String.isEmpty_iff]

theorem soDetail_status_eq (m : Bool) (r : ScratchOrgInfoRecord) :
    (soDetailOfRecord m r).status = claimDerivedStatus m r.Allocation_status__c := by
  unfold soDetailOfRecord claimDerivedStatus
  simp only [isFalsy_eq_true_iff]
  split_ifs <;> rfl

/-- Claim C1: for every queried pool record, the derived status is computed
as the claim states: Assigned maps to In use; Available in new-compatibility
mode or an empty/absent value in legacy mode maps to Available; every other
value maps to Provisioning in progress. -/
theorem poolList_status_matches_claim (m : Bool) (records : List ScratchOrgInfoRecord) :
    (PoolListImpl_execute m records).map (fun so => so.status)
      = records.map (fun r => claimDerivedStatus m r.Allocation_status__c) := by
  unfold PoolListImpl_execute
  rw [List.map_map]
  exact List.map_congr_left (fun r _ => soDetail_status_eq m r)

theorem soDetail_status_cases (m : Bool) (r : ScratchOrgInfoRecord) :
    (soDetailOfRecord m r).status = "In use" ∨ (soDetailOfRecord m r).status = "Available"
      ∨ (soDetailOfRecord m r).status = "Provisioning in progress" := by
  unfold soDetailOfRecord
  split_ifs <;> simp

theorem three_filter_partition (l : List ScratchOrg)
    (h : ∀ so ∈ l, so.status = "In use" ∨ so.status = "Available"
      ∨ so.status = "Provisioning in progress") :
    (l.filter (fun e => e.status == "In use")).length
      + (l.filter (fun e => e.status == "Available")).length
      + (l.filter (fun e => e.status == "Provisioning in progress")).length = l.length := by
  induction l with
  | nil => simp
  | cons a as ih =>
    have ha := h a (List.mem_cons_self a as)
    have hrest := fun so hso => h so (List.mem_cons_of_mem a hso)
    have ihh := ih hrest
    rcases ha with h1 | h1 | h1 <;>
      simp [List.filter_cons, h1] <;> omega

/-- Claim C10: every ScratchOrg produced by the pool listing has its status
set to exactly one of In use, Available, Provisioning in progress, so the
reported total equals the sum of the three per-status counts and that sum
exhausts the whole listing. -/
theorem poolList_output_total_partition (m : Bool) (records : List ScratchOrgInfoRecord) :
    (List_run_output (PoolListImpl_execute m records)).total
        = (PoolListImpl_execute m records).length
      ∧ (List_run_output (PoolListImpl_execute m records)).total
        = (List_run_output (PoolListImpl_execute m records)).inuse
          + (List_run_output (PoolListImpl_execute m records)).unused
          + (List_run_output (PoolListImpl_execute m records)).inprovision
      ∧ ((PoolListImpl_execute m records).map (fun so => so.status)).all
          (fun st => st == "In use" || st == "Available"
            || st == "Provisioning in progress") = true := by
  have hmem : ∀ so ∈ PoolListImpl_execute m records,
      so.status = "In use" ∨ so.status = "Available"
        ∨ so.status = "Provisioning in progress" := by
    intro so hso
    rcases List.mem_map.mp hso with ⟨r, _, rfl⟩
    exact soDetail_status_cases m r
  refine ⟨?_, rfl, ?_⟩
  · exact three_filter_partition _ hmem
  · rw [List.all_eq_true]
    intro st hst
    rcases List.mem_map.mp hst with ⟨so, hso, rfl⟩
    rcases hmem so hso with h1 | h1 | h1 <;> simp [h1]

theorem filter_not_contains_length_eq_zero (xs l : List String) :
    (((xs.filter (fun x => !(l.contains x))).length == 0) : Bool)
      = xs.all (fun x => l.contains x) := by
  induction xs with
  | nil => simp
  | cons x xs ih =>
    by_cases hx : x ∈ l
    · simpa [List.filter_cons, hx] using ih
    · simp [List.filter_cons, hx]

theorem scanFields_cons_stop (f : FieldDescribe) (fs : List FieldDescribe) (auth : Bool)
    (h : isAllocationFieldWithFourEntries f = true) :
    scanFields (f :: fs) auth = (auth || f.name == "SfdxAuthUrl__c", activeValues f) := by
  simp [scanFields, h]

theorem scanFields_cons_skip (f : FieldDescribe) (fs : List FieldDescribe) (auth : Bool)
    (h : isAllocationFieldWithFourEntries f = false) :
    scanFields (f :: fs) auth = scanFields fs (auth || f.name == "SfdxAuthUrl__c") := by
  simp [scanFields, h]

theorem scan_characterization (fields : List FieldDescribe) (auth : Bool) :
    ((scanFields fields auth).1
        && expectedValues.all (fun v => (scanFields fields auth).2.contains v)) =
      (match fields.dropWhile (fun f => !(isAllocationFieldWithFourEntries f)) with
       | [] => false
       | field :: _ =>
         (auth || (fields.takeWhile (fun f => !(isAllocationFieldWithFourEntries f))
             ++ [field]).any (fun f => f.name == "SfdxAuthUrl__c"))
           && expectedValues.all (fun v => (activeValues field).contains v)) := by
  induction fields generalizing auth with
  | nil => simp [scanFields, expectedValues]
  | cons f fs ih =>
    cases hfb : isAllocationFieldWithFourEntries f with
    | true =>
      rw [scanFields_cons_stop f fs auth hfb]
      simp [List.dropWhile_cons, List.takeWhile_cons, hfb]
    | false =>
      rw [scanFields_cons_skip f fs auth hfb, ih]
      simp only [List.dropWhile_cons, List.takeWhile_cons, hfb, Bool.not_false, if_true]
      cases hd : fs.dropWhile (fun f => !(isAllocationFieldWithFourEntries f)) with
      | nil => rfl
      | cons g gs => simp [Bool.or_assoc]

theorem isPrereq_eq_amended (fields : List FieldDescribe) :
    isPrerequisiteMetOf fields = amendedPrereqMet fields := by
  show ((scanFields fields false).1
      && ((expectedValues.filter
            (fun item => !((scanFields fields false).2.contains item))).length == 0))
    = amendedPrereqMet fields
  rw [filter_not_contains_length_eq_zero]
  exact scan_characterization fields false

/-- Claim C2 counterexample: on a describe result whose allocation-status
picklist holds the four expected values as active entries plus one inactive
entry, the claimed condition (active count 4, expected set among active
values, auth-url field present) is satisfied, yet the check throws a
PreRequisiteCheckError because it counts the number of all picklist entries,
active or not, rather than the active ones. -/
theorem prerequisiteCheck_claim_counterexample :
    claimPrereqMet fieldsWithInactiveLegacyEntry = true
      ∧ isPrerequisiteMetOf fieldsWithInactiveLegacyEntry = false
      ∧ (checkForPrerequisitesStep (some fieldsWithInactiveLegacyEntry)
          initialPreReqState).2 = CheckOutcome.prereqError := by
  decide

/-- Claim C2 (amended): for every describe result, the prerequisite check
throws a PreRequisiteCheckError exactly when the amended condition fails:
the field list is scanned in order, stopping at the first allocation-status
field with exactly 4 picklist entries counting inactive ones; the check
succeeds exactly when such a field exists, the expected value set is a
subset of its active values, and the auth-url field occurs in the scanned
part of the field list. -/
theorem prerequisiteCheck_fails_iff_amended (fields : List FieldDescribe) :
    (checkForPrerequisitesStep (some fields) initialPreReqState).2
      = (if amendedPrereqMet fields = true then CheckOutcome.ok
         else CheckOutcome.prereqError) := by
  simp [checkForPrerequisitesStep, initialPreReqState, isPrereq_eq_amended]

theorem runCheckCalls_checked (os : List (Option (List FieldDescribe))) (s : PreReqState)
    (h : s.isPrerequisiteChecked = true) :
    runCheckCalls os s
      = (s, List.replicate os.length
          (if s.isPrerequisiteMet then CheckOutcome.ok else CheckOutcome.prereqError)) := by
  induction os with
  | nil => simp [runCheckCalls]
  | cons o os ih =>
    simp [runCheckCalls, checkForPrerequisitesStep, h, ih, List.replicate_succ]

/-- Claim C3 counterexample: when the first describe round-trip rejects, the
checked flag is never set, so a second invocation issues a second remote
describe call; two invocations are not memoized into one describe. -/
theorem prerequisiteCheck_memoization_counterexample :
    (runCheckCalls [none, none] initialPreReqState).1.describeCallCount = 2
      ∧ ¬ (runCheckCalls [none, none] initialPreReqState).1.describeCallCount = 1 := by
  decide

/-- Claim C3 (amended): provided the first invocation's describe round-trip
succeeds, any number of invocations of the prerequisite check in one process
issues exactly one remote describe call, and every invocation, the later
ones reusing the memoized verdict, returns the same outcome as the first. -/
theorem prerequisiteCheck_memoizes (fields : List FieldDescribe)
    (rest : List (Option (List FieldDescribe))) :
    (runCheckCalls (some fields :: rest) initialPreReqState).1.describeCallCount = 1
      ∧ (runCheckCalls (some fields :: rest) initialPreReqState).2
        = List.replicate (rest.length + 1)
            (if isPrerequisiteMetOf fields then CheckOutcome.ok
             else CheckOutcome.prereqError) := by
  have hstep : checkForPrerequisitesStep (some fields) initialPreReqState
      = ({ isPrerequisiteChecked := true,
           isPrerequisiteMet := isPrerequisiteMetOf fields,
           describeCallCount := 1 },
         if isPrerequisiteMetOf fields then CheckOutcome.ok
         else CheckOutcome.prereqError) := by
    simp [checkForPrerequisitesStep, initialPreReqState]
  have hrest := runCheckCalls_checked rest
      { isPrerequisiteChecked := true,
        isPrerequisiteMet := isPrerequisiteMetOf fields,
        describeCallCount := 1 } rfl
  constructor
  · simp [runCheckCalls, hstep, hrest]
  · simp [runCheckCalls, hstep, hrest, List.replicate_succ]

theorem containsSub_append_right {q m : String} (h : containsSub q m) (r : String) :
    containsSub (q ++ r) m := by
  obtain ⟨p, s, rfl⟩ := h
  exact ⟨p, s ++ r, by simp only [String.append_assoc]⟩

theorem tagSelect_contains_tagFilter (tag : Option String) :
    containsSub (tagSelectQuery tag) (claimTagFilterClause tag) := by
  cases tag with
  | none =>
    exact ⟨"SELECT Pooltag__c, Id,  CreatedDate, ScratchOrg, ExpirationDate, SignupUsername, SignupEmail, Password__c, Allocation_status__c,LoginUrl,SfdxAuthUrl__c FROM ScratchOrgInfo WHERE ",
      "  AND Status = 'Active' ", rfl⟩
  | some t =>
    refine ⟨"SELECT Pooltag__c, Id,  CreatedDate, ScratchOrg, ExpirationDate, SignupUsername, SignupEmail, Password__c, Allocation_status__c,LoginUrl,SfdxAuthUrl__c FROM ScratchOrgInfo WHERE ",
      "  AND Status = 'Active' ", ?_⟩
    show "SELECT Pooltag__c, Id,  CreatedDate, ScratchOrg, ExpirationDate, SignupUsername, SignupEmail, Password__c, Allocation_status__c,LoginUrl,SfdxAuthUrl__c FROM ScratchOrgInfo WHERE Pooltag__c = '" ++ t ++ "'  AND Status = 'Active' "
      = _ ++ ("Pooltag__c = '" ++ t ++ "'") ++ _
    rw [show ("SELECT Pooltag__c, Id,  CreatedDate, ScratchOrg, ExpirationDate, SignupUsername, SignupEmail, Password__c, Allocation_status__c,LoginUrl,SfdxAuthUrl__c FROM ScratchOrgInfo WHERE Pooltag__c = '" : String)
        = "SELECT Pooltag__c, Id,  CreatedDate, ScratchOrg, ExpirationDate, SignupUsername, SignupEmail, Password__c, Allocation_status__c,LoginUrl,SfdxAuthUrl__c FROM ScratchOrgInfo WHERE " ++ "Pooltag__c = '" from rfl,
      show ("'  AND Status = 'Active' " : String) = "'" ++ "  AND Status = 'Active' " from rfl]
    simp only [String.append_assoc]

theorem tagSelect_contains_status (tag : Option String) :
    containsSub (tagSelectQuery tag) "Status = 'Active'" := by
  cases tag with
  | none =>
    exact ⟨"SELECT Pooltag__c, Id,  CreatedDate, ScratchOrg, ExpirationDate, SignupUsername, SignupEmail, Password__c, Allocation_status__c,LoginUrl,SfdxAuthUrl__c FROM ScratchOrgInfo WHERE Pooltag__c != null  AND ",
      " ", rfl⟩
  | some t =>
    refine ⟨"SELECT Pooltag__c, Id,  CreatedDate, ScratchOrg, ExpirationDate, SignupUsername, SignupEmail, Password__c, Allocation_status__c,LoginUrl,SfdxAuthUrl__c FROM ScratchOrgInfo WHERE Pooltag__c = '" ++ t ++ "'  AND ",
      " ", ?_⟩
    show "SELECT Pooltag__c, Id,  CreatedDate, ScratchOrg, ExpirationDate, SignupUsername, SignupEmail, Password__c, Allocation_status__c,LoginUrl,SfdxAuthUrl__c FROM ScratchOrgInfo WHERE Pooltag__c = '" ++ t ++ "'  AND Status = 'Active' "
      = _
    rw [show ("'  AND Status = 'Active' " : String) = "'  AND " ++ ("Status = 'Active'" ++ " ") from rfl]
    simp only [String.append_assoc]

theorem appended_alloc_filter (y : String) :
    containsSub
      (y ++ "AND ( Allocation_status__c ='Available' OR Allocation_status__c = 'In Progress' ) ")
      "( Allocation_status__c ='Available' OR Allocation_status__c = 'In Progress' )" := by
  refine ⟨y ++ "AND ", " ", ?_⟩
  rw [show ("AND ( Allocation_status__c ='Available' OR Allocation_status__c = 'In Progress' ) " : String)
      = "AND " ++ ("( Allocation_status__c ='Available' OR Allocation_status__c = 'In Progress' )" ++ " ") from rfl]
  simp only [String.append_assoc]

theorem containsSub_ite_append (b : Bool) (q r m : String) (h : containsSub q m) :
    containsSub (if b then q ++ r else q) m := by
  cases b
  · exact h
  · exact containsSub_append_right h r

theorem getScratchOrgsByTagQuery_def (tag : Option String) (mp ua : Bool) (u : String) :
    getScratchOrgsByTagQuery tag mp ua u
      = (if ua then
          (if mp then tagSelectQuery tag ++ (" AND createdby.username = '" ++ u ++ "' ")
           else tagSelectQuery tag)
            ++ "AND ( Allocation_status__c ='Available' OR Allocation_status__c = 'In Progress' ) "
         else
          (if mp then tagSelectQuery tag ++ (" AND createdby.username = '" ++ u ++ "' ")
           else tagSelectQuery tag))
        ++ ORDER_BY_FILTER := rfl

/-- Claim C4: for every invocation of getScratchOrgsByTag, the built query
filters on tag equality when a tag is provided and on a non-null tag
otherwise, always carries the Status = Active filter, carries the
allocation-status-in-Available-or-In-Progress filter when the
unassigned-only flag is set, and ends with the order-by-creation-date
ascending clause. -/
theorem getScratchOrgsByTag_query_shape (tag : Option String) (isMyPool : Bool)
    (unAssigned : Bool) (hubUsername : String) :
    containsSub (getScratchOrgsByTagQuery tag isMyPool unAssigned hubUsername)
        (claimTagFilterClause tag)
      ∧ containsSub (getScratchOrgsByTagQuery tag isMyPool unAssigned hubUsername)
        "Status = 'Active'"
      ∧ containsSub (getScratchOrgsByTagQuery tag isMyPool true hubUsername)
        "( Allocation_status__c ='Available' OR Allocation_status__c = 'In Progress' )"
      ∧ ∃ p, getScratchOrgsByTagQuery tag isMyPool unAssigned hubUsername
          = p ++ " ORDER BY CreatedDate ASC" := by
  refine ⟨?_, ?_, ?_, ⟨_, rfl⟩⟩
  · rw [getScratchOrgsByTagQuery_def]
    exact containsSub_append_right
      (containsSub_ite_append _ _ _ _
        (containsSub_ite_append _ _ _ _ (tagSelect_contains_tagFilter tag))) _
  · rw [getScratchOrgsByTagQuery_def]
    exact containsSub_append_right
      (containsSub_ite_append _ _ _ _
        (containsSub_ite_append _ _ _ _ (tagSelect_contains_status tag))) _
  · rw [getScratchOrgsByTagQuery_def]
    exact containsSub_append_right
      (appended_alloc_filter _) _

/-- Claim C4 witness: the query built for tag core with the my-pool and
unassigned-only flags set carries each claimed filter and the order-by
clause. -/
theorem getScratchOrgsByTag_query_shape_witness :
    containsSub (getScratchOrgsByTagQuery (some "core") true true "bob")
        (claimTagFilterClause (some "core"))
      ∧ containsSub (getScratchOrgsByTagQuery (some "core") true true "bob")
        "Status = 'Active'"
      ∧ containsSub (getScratchOrgsByTagQuery (some "core") true true "bob")
        "( Allocation_status__c ='Available' OR Allocation_status__c = 'In Progress' )"
      ∧ ∃ p, getScratchOrgsByTagQuery (some "core") true true "bob"
          = p ++ " ORDER BY CreatedDate ASC" :=
  getScratchOrgsByTag_query_shape (some "core") true true "bob"

/-- Claim C7: for every input and every outcome of the underlying update
call, setScratchOrgInfo never propagates an update error: a thrown update
error is caught and converted to the boolean false, a resolved result is
converted to its success flag (true for an array result); the helper always
returns a boolean and never throws. -/
theorem setScratchOrgInfo_never_throws (updateOutcomes : Nat → Except String UpdateCallResult) :
    setScratchOrgInfo updateOutcomes
      = .ok (match updateOutcomes 0 with
             | .ok (.single success) => success
             | .ok .multiple => true
             | .error _ => false) := by
  unfold setScratchOrgInfo retryExec
  cases h : updateOutcomes 0 with
  | ok r => cases r <;> simp [retryFrom, setScratchOrgInfoAttempt, h]
  | error e => simp [retryFrom, setScratchOrgInfoAttempt, h]

/-- Claim C5: every run of createScratchOrg in which the password-set step
returns no password fails with the explicit unable-to-set-password error;
no ScratchOrg value is returned to the caller. -/
theorem createScratchOrg_fails_without_password (id : Nat) (adminEmail : Option String)
    (result : CreateScratchOrgResult) (loginURL : String) (passwordData : PasswordData)
    (sfdxAuthUrl : String) (h : isFalsy passwordData.password = true) :
    createScratchOrg id adminEmail (.ok result) loginURL passwordData sfdxAuthUrl
      = .error "Unable to setup password to scratch org" := by
  simp [createScratchOrg, h]

/-- Claim C5 witness: a concrete run whose password-set step returns no
password fails with the explicit error. -/
theorem createScratchOrg_fails_without_password_witness :
    isFalsy (PasswordData.mk none "user1").password = true
      ∧ createScratchOrg 1 (some "admin@example.com")
          (.ok (CreateScratchOrgResult.mk "00D2xxxxxxxxxxxAAA" "user1"))
          "https://login.example.com" (PasswordData.mk none "user1") "force://auth"
        = .error "Unable to setup password to scratch org" :=
  ⟨by decide,
   createScratchOrg_fails_without_password 1 (some "admin@example.com")
     (CreateScratchOrgResult.mk "00D2xxxxxxxxxxxAAA" "user1") "https://login.example.com"
     (PasswordData.mk none "user1") "force://auth" (by decide)⟩

theorem stringSlice_length_le (s : String) (n : Nat) : (stringSlice s n).length ≤ n :=
  List.length_take_le n s.data

/-- Claim C6: in the record-id resolution used by reclamation, each org
identifier is truncated to its first 15 characters before being placed in
the query: the quoted id strings are exactly the truncated orgIds, the
truncated values are at most 15 characters long, and the 18-character
example identifier of the claim is cut down to its first 15 characters. -/
theorem getScratchOrgRecordId_truncates (scratchOrgs : List ScratchOrg) (so : ScratchOrg) :
    scratchOrgIdStrings scratchOrgs
        = scratchOrgs.map (fun x => "'" ++ stringSlice x.orgId 15 ++ "'")
      ∧ ((truncatedScratchOrgs scratchOrgs).map (fun x => x.orgId))
        = scratchOrgs.map (fun x => stringSlice x.orgId 15)
      ∧ ({ so with orgId := stringSlice so.orgId 15 } : ScratchOrg).orgId.length ≤ 15
      ∧ scratchOrgIdStrings [exampleScratchOrg] = ["'00D2xxxxxxxxxxx'"] := by
  refine ⟨?_, ?_, stringSlice_length_le so.orgId 15, ?_⟩
  · simp [scratchOrgIdStrings, truncatedScratchOrgs, List.map_map]
  · simp [truncatedScratchOrgs, List.map_map]
  · decide

/-- Claim C9 counterexample: getScratchOrgRecordId is given a ScratchOrg
whose orgId has 18 characters; after the call the caller's value carries the
15-character truncation, not the original orgId: the operation mutates the
values passed in. -/
theorem getScratchOrgRecordId_mutation_counterexample :
    ((getScratchOrgRecordIdEffect [exampleScratchOrg] (fun _ => none)).map
        (fun so => so.orgId) = ["00D2xxxxxxxxxxx"])
      ∧ ¬ ((getScratchOrgRecordIdEffect [exampleScratchOrg] (fun _ => none)).map
        (fun so => so.orgId) = [exampleScratchOrg.orgId]) := by
  decide

/-- Claim C9 (amended): getScratchOrgRecordId shares mutable ownership of
the ScratchOrg values with its caller: after the call each value's orgId has
been replaced by its first 15 characters and its recordId has been assigned
from the query result keyed by the truncated orgId, while unrelated fields
such as username are left unchanged. -/
theorem getScratchOrgRecordId_mutates_caller (scratchOrgs : List ScratchOrg)
    (queryRecordId : String → Option String) :
    ((getScratchOrgRecordIdEffect scratchOrgs queryRecordId).map (fun so => so.orgId)
        = scratchOrgs.map (fun so => stringSlice so.orgId 15))
      ∧ ((getScratchOrgRecordIdEffect scratchOrgs queryRecordId).map (fun so => so.recordId)
        = scratchOrgs.map (fun so => queryRecordId (stringSlice so.orgId 15)))
      ∧ ((getScratchOrgRecordIdEffect scratchOrgs queryRecordId).map (fun so => so.username)
        = scratchOrgs.map (fun so => so.username)) := by
  refine ⟨?_, ?_, ?_⟩ <;>
    simp [getScratchOrgRecordIdEffect, truncatedScratchOrgs, List.map_map]

/-- Claim C8 counterexample: three remote calls of the pool engine are
issued directly on the connection, with no retry wrapper at all - the
limits fetch, the per-user aggregate query, and the login-URL lookup of the
provisioning path - so not every remote call is wrapped in a retry policy. -/
theorem retryPolicy_counterexample :
    retryOptionsAt RemoteCallSite.getScratchOrgLoginURL = none
      ∧ retryOptionsAt RemoteCallSite.getScratchOrgLimits = none
      ∧ retryOptionsAt RemoteCallSite.getScratchOrgRecordsAsMapByUser = none := by
  decide

theorem retryFrom_all_errors {A : Type} (e : Nat → String) :
    ∀ (fuel i : Nat),
      retryFrom (fun j => (Except.error (e j) : Except String A)) i fuel
        = Except.error (e (i + fuel)) := by
  intro fuel
  induction fuel with
  | zero => intro i; simp [retryFrom]
  | succ f ih =>
    intro i
    rw [show retryFrom (fun j => (Except.error (e j) : Except String A)) i (f + 1)
        = retryFrom (fun j => (Except.error (e j) : Except String A)) (i + 1) f
      from rfl, ih (i + 1), show i + 1 + f = i + (f + 1) from by omega]

/-- Claim C8 (amended): every remote call of the pool engine other than the
limits fetch, the per-user aggregate query, and the login-URL lookup is
wrapped in a retry policy allowing 3 retries beyond the first attempt, with
a fixed minimum backoff of 2 seconds for the generic query helper, 30
seconds for schema describe and the email action, and 3 seconds for row
fetches and mutations; when every attempt fails, the wrapper rejects with
the last underlying error unchanged. -/
theorem retryPolicy_amended :
    (∀ c : RemoteCallSite, ¬ c ∈ unwrappedCallSites →
        retryOptionsAt c = some { retries := 3, minTimeout := claimBackoff c })
      ∧ ∀ (A : Type) (opts : RetryOptions) (e : Nat → String),
          retryExec opts (fun i => (Except.error (e i) : Except String A))
            = Except.error (e opts.retries) := by
  constructor
  · intro c hc
    cases c <;> first
      | rfl
      | exact absurd (by decide) hc
  · intro A opts e
    rw [retryExec, retryFrom_all_errors e opts.retries 0,
      show 0 + opts.retries = opts.retries from by omega]

/-- Claim C8 witness: the tag query call site is wrapped with 3 retries and
a 3 second minimum backoff, and a wrapper whose every attempt fails with the
same error rejects with that error. -/
theorem retryPolicy_amended_witness :
    retryOptionsAt RemoteCallSite.getScratchOrgsByTag_call
        = some { retries := 3, minTimeout := 3000 }
      ∧ retryExec { retries := 3, minTimeout := 2000 }
          (fun _ => (Except.error "boom" : Except String Nat)) = Except.error "boom" :=
  ⟨retryPolicy_amended.1 RemoteCallSite.getScratchOrgsByTag_call (by decide),
   retryPolicy_amended.2 Nat { retries := 3, minTimeout := 2000 } (fun _ => "boom")⟩
